import Mathlib

/-!
Shallow embedding of the tipping commands of the Discord tipping bot
(file `src/commands/tipping.rs`): the role-tip and single-user-tip
commands, reactdrop creation, and the shared settlement helper
`tip_multiple_users`.

Amounts are modelled in satoshis: `vrsc::Amount` wraps a `u64` number of
sats, so `checked_div` and `checked_mul` are modelled on `Nat` with the
`u64` overflow bound made explicit.  Database and wallet helpers whose
source is outside this excerpt (`util::database`, `wallet`) are modelled
from the specification and carry a doc comment saying so.  External,
fallible message delivery is modelled by a `dmOk` oracle saying which
direct-message sends succeed.
-/

namespace Bot

/-- Discord user identifier (`UserId` wraps a `u64`). -/
abbrev UserIdT := Nat

/-- Monetary amount in satoshis (`vrsc::Amount` wraps a `u64`). -/
abbrev Sats := Nat

/-- Notification preference (`misc::Notification`); all four variants are
named and matched exhaustively in `tipping.rs`. -/
inductive Notification
| All
| ChannelOnly
| DMOnly
| Off

deriving instance DecidableEq for Notification

/-- Result of a command handler (`Result<(), Error>` in the source):
`ok` for `Ok(())`, `err` for a propagated `Err`. -/
inductive TipResult
| ok
| err

deriving instance DecidableEq for TipResult

/-- Unit argument of the reactdrop command (`Hms` in the source). -/
inductive Hms
| Hours
| Minutes

/-- One row of the tip-transaction table: one entry per destination of a
transfer, all rows of one transfer sharing `event_id`. -/
structure LedgerEntry where
  event_id : Nat
  source : UserIdT
  dest : UserIdT
  amount : Sats
  kind : String

deriving instance DecidableEq for LedgerEntry

/-- Persisted reactdrop record, mirroring the arguments of
`database::insert_reactdrop` in the `reactdrop` command. -/
structure Reactdrop where
  initiator : UserIdT
  trigger : String
  amount : Sats
  channel : Nat
  message : Nat
  deadline : Int

deriving instance DecidableEq for Reactdrop

/-- The persistent state the commands act on: account balances, the
tip-transaction ledger and the persisted reactdrops. -/
structure BotState where
  balances : UserIdT → Sats
  ledger : List LedgerEntry
  reactdrops : List Reactdrop

/-- The `u64` bound of `vrsc::Amount`. -/
def u64Bound : Nat := 2 ^ 64

/-- Model of `Amount::checked_div` (`u64` division by a count): `None`
exactly when the divisor is zero, otherwise floor division. -/
def Amount.checked_div (a : Sats) (n : Nat) : Option Sats :=
  if n = 0 then none else some (a / n)

/-- Model of `Amount::checked_mul` on `u64` sats: `None` on overflow. -/
def Amount.checked_mul (a : Sats) (n : Nat) : Option Sats :=
  if a * n < u64Bound then some (a * n) else none

/-- Point update crediting `a` sats to account `u`. -/
def credit (b : UserIdT → Sats) (u : UserIdT) (a : Sats) : UserIdT → Sats :=
  fun v => if v = u then b v + a else b v

/-- Point update debiting `a` sats from account `u`. -/
def debit (b : UserIdT → Sats) (u : UserIdT) (a : Sats) : UserIdT → Sats :=
  fun v => if v = u then b v - a else b v

/-- Credit `a` sats to every account in `users`, one row update at a time. -/
def creditAll (b : UserIdT → Sats) (users : List UserIdT) (a : Sats) :
    UserIdT → Sats :=
  match users with
  | [] => b
  | u :: rest => creditAll (credit b u a) rest a

/-- Modelled from the spec: `database::process_a_tip` (module
`util::database` is not part of this excerpt).  Per §4.1/§4.2 it is the
atomic debit/credit: it debits the author by `share * n`, credits each of
the `n` destinations with `share`, and fails (`InsufficientFunds`) when
the author's balance does not cover the debit, in which case nothing is
written. -/
def process_a_tip (b : UserIdT → Sats) (author : UserIdT)
    (users : List UserIdT) (share : Sats) : Option (UserIdT → Sats) :=
  if b author < share * users.length then none
  else some (creditAll (debit b author (share * users.length)) users share)

/-- Modelled from the spec: `database::store_tip_transactions` (module
`util::database` is not part of this excerpt).  Per §3/§4.2 it appends
one ledger row per destination, all rows carrying the one event id, the
per-destination amount and the kind tag, with the author as source. -/
def store_tip_transactions (ledger : List LedgerEntry) (event_id : Nat)
    (users : List UserIdT) (kind : String) (share : Sats)
    (author : UserIdT) : List LedgerEntry :=
  ledger ++ users.map (fun u => ⟨event_id, author, u, share, kind⟩)

/-- Modelled from the spec: `database::get_notification_settings` (module
`util::database` is not part of this excerpt).  Per §4.4 each account may
have a stored preference; the query returns the pairs for those of the
given users that have one, in order. -/
def get_notification_settings (settings : UserIdT → Option Notification)
    (users : List UserIdT) : List (UserIdT × Notification) :=
  users.filterMap (fun u => (settings u).map (fun n => (u, n)))

/-- Modelled from the spec: `database::insert_reactdrop` (module
`util::database` is not part of this excerpt).  It durably appends the
reactdrop record built from the command's arguments. -/
def insert_reactdrop (rds : List Reactdrop) (author : UserIdT)
    (trigger : String) (amount : Sats) (channel message : Nat)
    (finish_time : Int) : List Reactdrop :=
  rds ++ [⟨author, trigger, amount, channel, message, finish_time⟩]

/-- Sum of the amounts committed to the pending reactdrops initiated by
`u` (every persisted reactdrop in the state is pending: settlement is
outside this excerpt). -/
def reservedOf (st : BotState) (u : UserIdT) : Sats :=
  ((st.reactdrops.filter (fun r => r.initiator == u)).map Reactdrop.amount).sum

/-- Modelled from the spec: `wallet::get_and_check_balance` (module
`wallet` is not part of this excerpt).  Per §4.1 the check fails
(`InsufficientFunds`, modelled as `none`) exactly when the source balance
minus the amount already reserved by pending reactdrops is less than the
requested total; otherwise it returns the available balance. -/
def get_and_check_balance (balance reserved total : Sats) : Option Sats :=
  if (balance : Int) - (reserved : Int) < (total : Int) then none
  else some (balance - reserved)

/-- Condition of the direct-message match arm in the notification loop of
`tip_multiple_users`: the arms `(_, All) | (_, DMOnly)` send a DM, the
wildcard arm does nothing. -/
def isDM : Notification → Bool
  | Notification.All => true
  | Notification.DMOnly => true
  | _ => false

/-- The notification `for`-loop of `tip_multiple_users`: walks the
preference rows in order; for an `All` or `DMOnly` row it sends a DM and,
when that send fails, returns early with the error (the `?` operator),
skipping every remaining row.  Returns the users actually DMed and
whether the loop ran to completion. -/
def notifyLoop (dmOk : UserIdT → Bool) :
    List (UserIdT × Notification) → List UserIdT × Bool
  | [] => ([], true)
  | (u, n) :: rest =>
    if isDM n then
      if dmOk u then
        let r := notifyLoop dmOk rest
        (u :: r.1, r.2)
      else ([], false)
    else notifyLoop dmOk rest

/-- Observable outcome of `tip_multiple_users`: the state after the call,
which users received a DM, whether the public channel message was sent,
the moved total displayed in that message (when sent), and the handler
result. -/
structure MultiTipOutcome where
  state : BotState
  dmsDelivered : List UserIdT
  publicSent : Bool
  reportedAmount : Option Sats
  result : TipResult

/-- Embedding of `tip_multiple_users` (`tipping.rs`, the shared helper of
the role tip and of reactdrop settlement).  `amount.checked_div(n)` is
`none` only for an empty destination list, in which case the code only
logs an error and returns `Ok(())`.  Otherwise the moved total is
`div_tip_amount.checked_mul(n).unwrap_or(amount)`, balances are updated
by `process_a_tip`, ledger rows are written by `store_tip_transactions`
under a fresh event id, the DM loop runs, and finally one public channel
message reporting the moved total is sent; a DM failure propagates,
skipping the public message but rolling nothing back. -/
def tip_multiple_users (settings : UserIdT → Option Notification)
    (dmOk : UserIdT → Bool) (st : BotState) (author : UserIdT)
    (users : List UserIdT) (amount : Sats) (kind : String)
    (tip_event_id : Nat) : MultiTipOutcome :=
  match Amount.checked_div amount users.length with
  | none => ⟨st, [], false, none, TipResult.ok⟩
  | some div_tip_amount =>
    let amount2 := (Amount.checked_mul div_tip_amount users.length).getD amount
    match process_a_tip st.balances author users div_tip_amount with
    | none => ⟨st, [], false, none, TipResult.err⟩
    | some balances2 =>
      let ledger2 :=
        store_tip_transactions st.ledger tip_event_id users kind div_tip_amount author
      let res := notifyLoop dmOk (get_notification_settings settings users)
      ⟨⟨balances2, ledger2, st.reactdrops⟩, res.1, res.2,
        if res.2 then some amount2 else none,
        if res.2 then TipResult.ok else TipResult.err⟩

/-- Observable outcome of the single-user `user` command: the state after
the call, whether a public message was sent and whether it mentions the
recipient (`some true` = mentioning `<@id>`, `some false` =
non-mentioning backticked tag, `none` = no public message), whether the
recipient was DMed, and the handler result. -/
structure UserTipOutcome where
  state : BotState
  publicMentioning : Option Bool
  dmSent : Bool
  result : TipResult

/-- Embedding of the `user` command (`tipping.rs`): after the blacklist
and balance checks, settle via `process_a_tip` and
`store_tip_transactions` with kind `direct`, then dispatch notification
per the recipient's stored preference: `All` and `ChannelOnly` send the
mentioning public message only; `DMOnly` sends the non-mentioning public
message then a DM (a DM failure propagates after the public send);
`Off` sends the non-mentioning public message only; an unset preference
sends the mentioning public message only. -/
def user (settings : UserIdT → Option Notification) (dmOk : UserIdT → Bool)
    (st : BotState) (author target : UserIdT) (tip_amount : Sats)
    (blacklisted : Bool) (tip_event_id : Nat) : UserTipOutcome :=
  if blacklisted then ⟨st, none, false, TipResult.ok⟩
  else
    match get_and_check_balance (st.balances author) (reservedOf st author)
        tip_amount with
    | none => ⟨st, none, false, TipResult.ok⟩
    | some _ =>
      match process_a_tip st.balances author [target] tip_amount with
      | none => ⟨st, none, false, TipResult.err⟩
      | some balances2 =>
        let ledger2 :=
          store_tip_transactions st.ledger tip_event_id [target] "direct"
            tip_amount author
        let notice : Option Bool × Bool × TipResult :=
          match (get_notification_settings settings [target]).head? with
          | some (_, Notification.All) | some (_, Notification.ChannelOnly) =>
            (some true, false, TipResult.ok)
          | some (_, Notification.DMOnly) =>
            if dmOk target then (some false, true, TipResult.ok)
            else (some false, false, TipResult.err)
          | some (_, Notification.Off) => (some false, false, TipResult.ok)
          | none => (some true, false, TipResult.ok)
        ⟨⟨balances2, ledger2, st.reactdrops⟩, notice.1, notice.2.1, notice.2.2⟩

/-- Destination list of the role tip (`tipping.rs`, `role`): guild members
whose role list contains the selected role, or every member when the
selected role id equals the guild id (the `@everyone` role).  A member is
a pair of the user id and the list of role ids the member holds. -/
def role_members (members : List (UserIdT × List Nat))
    (roleId guildId : Nat) : List UserIdT :=
  (members.filter (fun m => m.2.contains roleId || roleId == guildId)).map Prod.fst

/-- Platform-enforced lower bound on the role tip amount, from the
argument annotation `min = 0.5` (VRSC), in sats. -/
def roleMinVrscSats : Sats := 50000000

/-- Platform-enforced lower bound on the reactdrop amount, from the
argument annotation `min = 0.1` (VRSC), in sats. -/
def reactdropMinVrscSats : Sats := 10000000

/-- Platform-side acceptance of the role tip amount argument: the
annotation admits any value greater than or equal to the bound. -/
def roleArgAccepted (a : Sats) : Bool := decide (roleMinVrscSats ≤ a)

/-- Platform-side acceptance of the reactdrop amount argument. -/
def reactdropArgAccepted (a : Sats) : Bool := decide (reactdropMinVrscSats ≤ a)

/-- Platform-side acceptance of the `user` command's amount argument: the
parameter carries no `min` annotation, so every amount is accepted. -/
def userArgAccepted (_ : Sats) : Bool := true

/-- Embedding of the `role` command (`tipping.rs`): the platform first
enforces the argument bound (an out-of-range argument never reaches the
handler; modelled as an error outcome with unchanged state), then the
handler checks the blacklist and the balance, and inside a guild calls
`tip_multiple_users` on the role's member list with kind `role`. -/
def role (settings : UserIdT → Option Notification) (dmOk : UserIdT → Bool)
    (st : BotState) (author : UserIdT) (roleId guildId : Nat)
    (members : List (UserIdT × List Nat)) (tip_amount : Sats)
    (blacklisted inGuild : Bool) (tip_event_id : Nat) : MultiTipOutcome :=
  if roleArgAccepted tip_amount then
    if blacklisted then ⟨st, [], false, none, TipResult.ok⟩
    else
      match get_and_check_balance (st.balances author) (reservedOf st author)
          tip_amount with
      | none => ⟨st, [], false, none, TipResult.ok⟩
      | some _ =>
        if inGuild then
          tip_multiple_users settings dmOk st author
            (role_members members roleId guildId) tip_amount "role" tip_event_id
        else ⟨st, [], false, none, TipResult.ok⟩
  else ⟨st, [], false, none, TipResult.err⟩

/-- Duration of a reactdrop from the `time`/`hms` arguments, in seconds
(`Duration::seconds(time * 60 * 60)` or `Duration::seconds(time * 60)`). -/
def hmsDuration (time : Int) : Hms → Int
  | Hms.Hours => time * 60 * 60
  | Hms.Minutes => time * 60

/-- Embedding of the `reactdrop` command (`tipping.rs`): the platform
enforces the amount bound, the handler checks the blacklist and the
balance, validates the emoji against the guild (an external lookup,
collapsed into `emojiValid`), then persists the reactdrop record via
`insert_reactdrop` with deadline `now + duration` — moving no funds and
writing no ledger row.  Returns the state and whether the record was
created. -/
def reactdrop (st : BotState) (author : UserIdT) (blacklisted : Bool)
    (emojiValid : Bool) (emojiStr : String) (amount : Sats)
    (channel message : Nat) (time : Int) (hms : Hms) (now : Int) :
    BotState × Bool :=
  if reactdropArgAccepted amount then
    if blacklisted then (st, false)
    else
      match get_and_check_balance (st.balances author) (reservedOf st author)
          amount with
      | none => (st, false)
      | some _ =>
        if emojiValid then
          let finish_time := now + hmsDuration time hms
          (⟨st.balances, st.ledger,
            insert_reactdrop st.reactdrops author emojiStr amount channel
              message finish_time⟩, true)
        else (st, false)
  else (st, false)

/-! ## Concrete fixtures used by witnesses and counterexamples -/

/-- State with a single funded account: user 1 holds 100 sats. -/
def baseState : BotState := ⟨fun u => if u = 1 then 100 else 0, [], []⟩

/-- State where user 1 holds only 5 sats. -/
def poorState : BotState := ⟨fun u => if u = 1 then 5 else 0, [], []⟩

/-- State where user 1 holds 20000000 sats. -/
def richState : BotState := ⟨fun u => if u = 1 then 20000000 else 0, [], []⟩

/-- Stored preferences: user 2 has preference `All`, everyone else unset. -/
def settingsAllFor2 : UserIdT → Option Notification :=
  fun u => if u = 2 then some Notification.All else none

/-- Stored preferences: users 2 and 3 both have preference `All`. -/
def settingsAllFor23 : UserIdT → Option Notification :=
  fun u => if u = 2 ∨ u = 3 then some Notification.All else none

/-- DM delivery oracle under which the send to user 2 fails and every
other send succeeds. -/
def dmFailsFor2 : UserIdT → Bool := fun u => !(u == 2)

/-! ## Helper lemmas -/

lemma creditAll_apply_notMem (a : Sats) :
    ∀ (users : List UserIdT) (b : UserIdT → Sats) (u : UserIdT),
      u ∉ users → creditAll b users a u = b u := by
  intro users
  induction users with
  | nil => intro b u _; rfl
  | cons v rest ih =>
    intro b u hu
    rw [List.mem_cons] at hu
    push_neg at hu
    rw [creditAll, ih (credit b v a) u hu.2, credit, if_neg hu.1]

lemma creditAll_apply_mem (a : Sats) :
    ∀ (users : List UserIdT) (b : UserIdT → Sats) (u : UserIdT),
      users.Nodup → u ∈ users → creditAll b users a u = b u + a := by
  intro users
  induction users with
  | nil => intro b u _ hm; cases hm
  | cons v rest ih =>
    intro b u hnd hm
    rw [List.nodup_cons] at hnd
    rw [creditAll]
    rcases List.mem_cons.mp hm with h | h
    · subst h
      rw [creditAll_apply_notMem a rest _ u hnd.1, credit, if_pos rfl]
    · have hne : u ≠ v := fun he => hnd.1 (he ▸ h)
      rw [ih (credit b v a) u hnd.2 h, credit, if_neg hne]

lemma notifyLoop_ok (dmOk : UserIdT → Bool) :
    ∀ pairs : List (UserIdT × Notification),
      (∀ p ∈ pairs, isDM p.2 = true → dmOk p.1 = true) →
      notifyLoop dmOk pairs =
        ((pairs.filter (fun p => isDM p.2)).map Prod.fst, true) := by
  intro pairs
  induction pairs with
  | nil => intro _; rfl
  | cons p rest ih =>
    intro h
    obtain ⟨u, n⟩ := p
    rw [notifyLoop]
    have hrest : ∀ q ∈ rest, isDM q.2 = true → dmOk q.1 = true :=
      fun q hq => h q (List.mem_cons_of_mem _ hq)
    by_cases hdm : isDM n = true
    · rw [if_pos hdm, if_pos (h (u, n) (List.mem_cons_self _ _) hdm), ih hrest]
      simp [hdm]
    · rw [if_neg hdm, ih hrest]
      simp only [List.filter_cons]
      rw [if_neg hdm]

lemma sum_map_const {α : Type} (l : List α) (c : Nat) :
    (l.map (fun _ => c)).sum = l.length * c := by
  induction l with
  | nil => simp
  | cons x xs ih => simp [ih, Nat.succ_mul, Nat.add_comm]

/-- Unfolding of the success path of `tip_multiple_users`: with a
non-empty destination list and a sufficient balance, the balances are
updated, the ledger rows are appended, and the notification outcome is
given by the loop. -/
lemma tip_multiple_users_success (settings : UserIdT → Option Notification)
    (dmOk : UserIdT → Bool) (st : BotState) (author : UserIdT)
    (users : List UserIdT) (amount : Sats) (kind : String) (eid : Nat)
    (hne : users ≠ [])
    (hbal : ¬ st.balances author < amount / users.length * users.length) :
    tip_multiple_users settings dmOk st author users amount kind eid =
      ⟨⟨creditAll (debit st.balances author (amount / users.length * users.length))
          users (amount / users.length),
        st.ledger ++ users.map (fun u =>
          ⟨eid, author, u, amount / users.length, kind⟩),
        st.reactdrops⟩,
       (notifyLoop dmOk (get_notification_settings settings users)).1,
       (notifyLoop dmOk (get_notification_settings settings users)).2,
       if (notifyLoop dmOk (get_notification_settings settings users)).2 then
         some ((Amount.checked_mul (amount / users.length) users.length).getD amount)
       else none,
       if (notifyLoop dmOk (get_notification_settings settings users)).2 then
         TipResult.ok
       else TipResult.err⟩ := by
  have hlen : users.length ≠ 0 := fun h => hne (List.length_eq_zero.mp h)
  simp only [tip_multiple_users, Amount.checked_div, if_neg hlen, process_a_tip,
    if_neg hbal, store_tip_transactions]

lemma gns_single (settings : UserIdT → Option Notification) (target : UserIdT) :
    (get_notification_settings settings [target]).head? =
      (settings target).map (fun n => (target, n)) := by
  cases h : settings target <;> simp [get_notification_settings, h]

/-! ## Claim C1 -/

/-- Claim C1: for every role tip or reactdrop settlement with requested
total `amount` and a non-empty list of destination users, each
destination is credited exactly `amount / n` sats, any moved total the
engine reports to callers is `amount / n * n ≤ amount`, and the sender is
debited that moved total rather than `amount`, so the remainder stays
with the sender. -/
theorem tip_split_policy (settings : UserIdT → Option Notification)
    (dmOk : UserIdT → Bool) (st : BotState) (author : UserIdT)
    (users : List UserIdT) (amount : Sats) (kind : String) (eid : Nat)
    (hne : users ≠ []) (hamt : amount < u64Bound)
    (hnd : users.Nodup) (hauthor : author ∉ users)
    (hbal : ¬ st.balances author < amount / users.length * users.length) :
    (∀ u ∈ users,
      (tip_multiple_users settings dmOk st author users amount kind
          eid).state.balances u =
        st.balances u + amount / users.length) ∧
    (tip_multiple_users settings dmOk st author users amount kind
        eid).state.balances author =
      st.balances author - amount / users.length * users.length ∧
    (∀ m,
      (tip_multiple_users settings dmOk st author users amount kind
          eid).reportedAmount = some m →
      m = amount / users.length * users.length) ∧
    amount / users.length * users.length ≤ amount := by
  rw [tip_multiple_users_success settings dmOk st author users amount kind eid
    hne hbal]
  have hle : amount / users.length * users.length ≤ amount :=
    Nat.div_mul_le_self amount users.length
  refine ⟨?_, ?_, ?_, hle⟩
  · intro u hu
    have hune : u ≠ author := fun he => hauthor (he ▸ hu)
    simp only []
    rw [creditAll_apply_mem _ users _ u hnd hu, debit, if_neg hune]
  · simp only []
    rw [creditAll_apply_notMem _ users _ author hauthor, debit, if_pos rfl]
  · intro m
    have hmul : Amount.checked_mul (amount / users.length) users.length =
        some (amount / users.length * users.length) := by
      rw [Amount.checked_mul, if_pos (Nat.lt_of_le_of_lt hle hamt)]
    cases hres : (notifyLoop dmOk (get_notification_settings settings users)).2 <;>
      simp [hres, hmul]
    intro hm
    exact hm.symm

/-- Witness for claim C1: user 1 holds 100 sats and role-tips 10 sats to
the three users 2, 3, 4; each is credited 3 sats, user 1 is debited 9
sats, and any reported moved total is 9 ≤ 10. -/
theorem tip_split_policy_witness :
    (∀ u ∈ ([2, 3, 4] : List UserIdT),
      (tip_multiple_users (fun _ => none) (fun _ => true) baseState 1
          [2, 3, 4] 10 "role" 7).state.balances u =
        baseState.balances u + 3) ∧
    (tip_multiple_users (fun _ => none) (fun _ => true) baseState 1
        [2, 3, 4] 10 "role" 7).state.balances 1 =
      baseState.balances 1 - 9 ∧
    (∀ m,
      (tip_multiple_users (fun _ => none) (fun _ => true) baseState 1
          [2, 3, 4] 10 "role" 7).reportedAmount = some m →
      m = 9) ∧
    (9 : Nat) ≤ 10 :=
  tip_split_policy (fun _ => none) (fun _ => true) baseState 1 [2, 3, 4] 10
    "role" 7 (by decide) (by decide) (by decide) (by decide) (by decide)

/-! ## Claim C4 -/

/-- Counterexample to claim C4 as stated: a transfer intent with an empty
destination list is not rejected with an error surfaced to the caller —
the handler result is `ok` (the source only logs
`error!("could not send tip to role")` and returns `Ok(())`). -/
theorem empty_destinations_returns_ok :
    (tip_multiple_users (fun _ => none) (fun _ => true) baseState 1 [] 10
        "role" 7).result = TipResult.ok := by
  decide

/-- Claim C4 (amended): for every transfer intent whose destination set is
empty, no balance is mutated and no ledger entry is written, but no
`InvalidSplit` error is surfaced to the caller: the division by zero is
caught, an error is only logged, and the handler returns success with the
state untouched. -/
theorem empty_destinations_no_mutation
    (settings : UserIdT → Option Notification) (dmOk : UserIdT → Bool)
    (st : BotState) (author : UserIdT) (amount : Sats) (kind : String)
    (eid : Nat) :
    tip_multiple_users settings dmOk st author [] amount kind eid =
      ⟨st, [], false, none, TipResult.ok⟩ :=
  rfl

/-! ## Claim C5 -/

/-- Claim C5: the balance check used by every transfer and reactdrop
creation fails (`InsufficientFunds`, modelled as `none`) exactly when the
source account's balance minus the amounts committed to that source's
pending reactdrops is less than the requested total. -/
theorem balance_check_insufficient_iff (st : BotState) (author : UserIdT)
    (total : Sats) :
    get_and_check_balance (st.balances author) (reservedOf st author) total =
        none ↔
      (st.balances author : Int) - (reservedOf st author : Int) <
        (total : Int) := by
  by_cases h :
      (st.balances author : Int) - (reservedOf st author : Int) < (total : Int) <;>
    simp [get_and_check_balance, h]

/-! ## Claim C6 -/

/-- Claim C6: a single-user transfer attempt that fails the balance check
produces zero balance mutations and zero ledger entries — the handler
returns with the state exactly as it was. -/
theorem failed_validation_no_mutation
    (settings : UserIdT → Option Notification) (dmOk : UserIdT → Bool)
    (st : BotState) (author target : UserIdT) (amt : Sats) (eid : Nat)
    (h : (st.balances author : Int) - (reservedOf st author : Int) <
      (amt : Int)) :
    user settings dmOk st author target amt false eid =
      ⟨st, none, false, TipResult.ok⟩ := by
  simp [user, get_and_check_balance, if_pos h]

/-- Witness for claim C6: user 1 holds 5 sats and attempts to tip 10; the
check fails and the state is returned unchanged (balance still 5, no
ledger entry). -/
theorem failed_validation_no_mutation_witness :
    ((poorState.balances 1 : Int) - (reservedOf poorState 1 : Int) <
      (10 : Int)) ∧
    user (fun _ => none) (fun _ => true) poorState 1 2 10 false 7 =
      ⟨poorState, none, false, TipResult.ok⟩ :=
  ⟨by decide,
   failed_validation_no_mutation (fun _ => none) (fun _ => true) poorState 1 2
     10 7 (by decide)⟩

/-! ## Claim C2 -/

/-- Counterexample to claim C2 as stated: in the single-user tip path a
recipient whose stored preference is `All` receives the mentioning public
channel message but no direct message — the source matches
`Notification::All | Notification::ChannelOnly` to a channel send only —
while the claim's mapping says `All` receives a public message plus a
direct message.  Here user 1 successfully tips user 2 (preference `All`,
all DM sends would succeed) and no DM is sent. -/
theorem notify_all_single_path_no_dm :
    (user settingsAllFor2 (fun _ => true) baseState 1 2 30 false 7).result =
        TipResult.ok ∧
    (user settingsAllFor2 (fun _ => true) baseState 1 2 30 false 7).state.ledger.length = 1 ∧
    (user settingsAllFor2 (fun _ => true) baseState 1 2 30 false 7).publicMentioning =
        some true ∧
    (user settingsAllFor2 (fun _ => true) baseState 1 2 30 false 7).dmSent =
        false := by
  decide

/-- Claim C2 (amended): notification follows the code's two fixed
mappings.  Single-user path: `All`, `ChannelOnly` and an unset preference
get the mentioning public message only (no DM); `DMOnly` gets the
non-mentioning public message plus a DM (the DM's success given by the
delivery oracle); `Off` gets the non-mentioning public message only; in
every successful single-user transfer a public message is sent.
Multi-user path: recipients with stored preference `All` or `DMOnly` are
DMed, recipients with `ChannelOnly`, `Off` or no stored preference are
not, and one public channel message for the whole transfer is sent when
every attempted DM succeeds. -/
theorem notification_mapping_actual :
    (∀ (settings : UserIdT → Option Notification) (dmOk : UserIdT → Bool)
      (st : BotState) (author target : UserIdT) (amt : Sats) (eid : Nat),
      ¬ (st.balances author : Int) - (reservedOf st author : Int) <
        (amt : Int) →
      ¬ st.balances author < amt →
      ((settings target = some Notification.All ∨
        settings target = some Notification.ChannelOnly ∨
        settings target = none) →
        (user settings dmOk st author target amt false eid).publicMentioning =
            some true ∧
        (user settings dmOk st author target amt false eid).dmSent = false) ∧
      (settings target = some Notification.DMOnly →
        (user settings dmOk st author target amt false eid).publicMentioning =
            some false ∧
        (user settings dmOk st author target amt false eid).dmSent =
          dmOk target) ∧
      (settings target = some Notification.Off →
        (user settings dmOk st author target amt false eid).publicMentioning =
            some false ∧
        (user settings dmOk st author target amt false eid).dmSent = false) ∧
      ((user settings dmOk st author target amt false
          eid).publicMentioning).isSome = true) ∧
    (∀ (settings : UserIdT → Option Notification) (dmOk : UserIdT → Bool)
      (st : BotState) (author : UserIdT) (users : List UserIdT) (amount : Sats)
      (kind : String) (eid : Nat),
      users ≠ [] →
      ¬ st.balances author < amount / users.length * users.length →
      (∀ p ∈ get_notification_settings settings users,
        isDM p.2 = true → dmOk p.1 = true) →
      (tip_multiple_users settings dmOk st author users amount kind
          eid).publicSent = true ∧
      (tip_multiple_users settings dmOk st author users amount kind
          eid).dmsDelivered =
        ((get_notification_settings settings users).filter
          (fun p => isDM p.2)).map Prod.fst) := by
  constructor
  · intro settings dmOk st author target amt eid h1 h2
    refine ⟨?_, ?_, ?_, ?_⟩
    · rintro (h | h | h) <;>
        simp [user, get_and_check_balance, if_neg h1, process_a_tip,
          gns_single, h, if_neg h2]
    · intro h
      cases hdm : dmOk target <;>
        simp [user, get_and_check_balance, if_neg h1, process_a_tip,
          gns_single, h, if_neg h2, hdm]
    · intro h
      simp [user, get_and_check_balance, if_neg h1, process_a_tip, gns_single,
        h, if_neg h2]
    · rcases hset : settings target with _ | n
      · simp [user, get_and_check_balance, if_neg h1, process_a_tip,
          gns_single, hset, if_neg h2]
      · cases n
        case DMOnly =>
          cases hdm : dmOk target <;>
            simp [user, get_and_check_balance, if_neg h1, process_a_tip,
              gns_single, hset, if_neg h2, hdm]
        all_goals
          simp [user, get_and_check_balance, if_neg h1, process_a_tip,
            gns_single, hset, if_neg h2]
  · intro settings dmOk st author users amount kind eid hne hbal hdm
    rw [tip_multiple_users_success settings dmOk st author users amount kind
      eid hne hbal]
    rw [notifyLoop_ok dmOk _ hdm]
    simp

/-- Witness for claim C2 (amended), single-user part: user 1 holds 100
sats, tips user 2 (stored preference `All`) 30 sats; the mapping gives a
mentioning public message and no DM. -/
theorem notification_mapping_actual_witness :
    ((settingsAllFor2 2 = some Notification.All ∨
      settingsAllFor2 2 = some Notification.ChannelOnly ∨
      settingsAllFor2 2 = none) →
      (user settingsAllFor2 (fun _ => true) baseState 1 2 30 false
          7).publicMentioning = some true ∧
      (user settingsAllFor2 (fun _ => true) baseState 1 2 30 false
          7).dmSent = false) ∧
    (settingsAllFor2 2 = some Notification.DMOnly →
      (user settingsAllFor2 (fun _ => true) baseState 1 2 30 false
          7).publicMentioning = some false ∧
      (user settingsAllFor2 (fun _ => true) baseState 1 2 30 false
          7).dmSent = (fun _ => true) 2) ∧
    (settingsAllFor2 2 = some Notification.Off →
      (user settingsAllFor2 (fun _ => true) baseState 1 2 30 false
          7).publicMentioning = some false ∧
      (user settingsAllFor2 (fun _ => true) baseState 1 2 30 false
          7).dmSent = false) ∧
    ((user settingsAllFor2 (fun _ => true) baseState 1 2 30 false
        7).publicMentioning).isSome = true :=
  notification_mapping_actual.1 settingsAllFor2 (fun _ => true) baseState 1 2
    30 7 (by decide) (by decide)

/-! ## Claim C3 -/

/-- Claim C3 (code bug, demonstration at the failing input): user 1
successfully role-tips 10 sats to users 2 and 3, both with stored
preference `All`; the DM send to user 2 fails.  The code then propagates
the failure out of the notification loop (the `?` operator), so user 3
never receives a DM and the public channel message is never sent — contradicting
the claim that one recipient's delivery failure does not affect the other
recipients' notifications.  The already-settled balance changes and
ledger entries are, as the claim says, not rolled back: both recipients
keep their 5 sats, the sender stays debited and both ledger rows remain. -/
theorem dm_failure_aborts_notifications :
    (tip_multiple_users settingsAllFor23 dmFailsFor2 baseState 1 [2, 3] 10
        "reactdrop" 7).dmsDelivered = [] ∧
    (tip_multiple_users settingsAllFor23 dmFailsFor2 baseState 1 [2, 3] 10
        "reactdrop" 7).publicSent = false ∧
    (tip_multiple_users settingsAllFor23 dmFailsFor2 baseState 1 [2, 3] 10
        "reactdrop" 7).result = TipResult.err ∧
    (tip_multiple_users settingsAllFor23 dmFailsFor2 baseState 1 [2, 3] 10
        "reactdrop" 7).state.ledger.length = 2 ∧
    (tip_multiple_users settingsAllFor23 dmFailsFor2 baseState 1 [2, 3] 10
        "reactdrop" 7).state.balances 1 = 90 ∧
    (tip_multiple_users settingsAllFor23 dmFailsFor2 baseState 1 [2, 3] 10
        "reactdrop" 7).state.balances 2 = 5 ∧
    (tip_multiple_users settingsAllFor23 dmFailsFor2 baseState 1 [2, 3] 10
        "reactdrop" 7).state.balances 3 = 5 := by
  decide

/-! ## Claim C7 -/

/-- Claim C7: creating a reactdrop validates the initiator's balance but
moves and reserves no funds: after a successful creation every account
balance is unchanged and no ledger entry was written; the reactdrop
record (initiator, trigger token, amount, channel, message, deadline) is
persisted.  Funds move only at settlement, which runs through the same
`tip_multiple_users` engine later. -/
theorem reactdrop_creation_frame (st : BotState) (author : UserIdT)
    (emojiStr : String) (amount : Sats) (channel message : Nat) (time : Int)
    (hms : Hms) (now : Int)
    (hmin : reactdropArgAccepted amount = true)
    (hbal : ¬ (st.balances author : Int) - (reservedOf st author : Int) <
      (amount : Int)) :
    (reactdrop st author false true emojiStr amount channel message time hms
        now).1.balances = st.balances ∧
    (reactdrop st author false true emojiStr amount channel message time hms
        now).1.ledger = st.ledger ∧
    (reactdrop st author false true emojiStr amount channel message time hms
        now).1.reactdrops =
      st.reactdrops ++
        [⟨author, emojiStr, amount, channel, message,
          now + hmsDuration time hms⟩] ∧
    (reactdrop st author false true emojiStr amount channel message time hms
        now).2 = true := by
  simp [reactdrop, hmin, get_and_check_balance, if_neg hbal, insert_reactdrop]

/-- Witness for claim C7: user 1 holds 20000000 sats and creates a
one-hour reactdrop of 10000000 sats with trigger emoji `x`; balances and
ledger are untouched and the record is persisted with deadline 3600. -/
theorem reactdrop_creation_frame_witness :
    reactdropArgAccepted 10000000 = true ∧
    (¬ (richState.balances 1 : Int) - (reservedOf richState 1 : Int) <
      (10000000 : Int)) ∧
    ((reactdrop richState 1 false true "x" 10000000 5 6 1 Hms.Hours
        0).1.balances = richState.balances ∧
    (reactdrop richState 1 false true "x" 10000000 5 6 1 Hms.Hours
        0).1.ledger = richState.ledger ∧
    (reactdrop richState 1 false true "x" 10000000 5 6 1 Hms.Hours
        0).1.reactdrops =
      richState.reactdrops ++ [⟨1, "x", 10000000, 5, 6, 3600⟩] ∧
    (reactdrop richState 1 false true "x" 10000000 5 6 1 Hms.Hours 0).2 =
      true) :=
  ⟨by decide, by decide,
   reactdrop_creation_frame richState 1 "x" 10000000 5 6 1 Hms.Hours 0
     (by decide) (by decide)⟩

/-! ## Claim C8 -/

/-- Counterexample to claim C8 as stated: there is no non-zero
system-wide minimum enforced by every tipping entry point.  The `user`
command's amount argument carries no `min` annotation, so a tip of 0 sats
is accepted and settles (writing a ledger row); the role tip accepts an
amount exactly equal to its own bound (the bound is inclusive, not a
strict `greater than`); and the role and reactdrop bounds differ from
each other (0.5 VRSC vs 0.1 VRSC), so no single system-wide minimum
exists — nor is any `BelowMinimum` error produced. -/
theorem minimum_not_uniform :
    (user settingsAllFor2 (fun _ => true) baseState 1 2 0 false 7).result =
        TipResult.ok ∧
    (user settingsAllFor2 (fun _ => true) baseState 1 2 0 false
        7).state.ledger.length = 1 ∧
    userArgAccepted 0 = true ∧
    roleArgAccepted roleMinVrscSats = true ∧
    roleMinVrscSats ≠ reactdropMinVrscSats := by
  decide

/-- Claim C8 (amended): the minimum amounts are per-command platform
argument bounds, inclusive, with no `BelowMinimum` error: the role tip
accepts exactly the amounts of at least 0.5 VRSC and the platform
rejects a smaller argument before the handler runs (state unchanged);
the reactdrop accepts exactly the amounts of at least 0.1 VRSC,
likewise; the single-user tip has no minimum at all. -/
theorem argument_minimums_actual :
    (∀ a : Sats, roleArgAccepted a = true ↔ roleMinVrscSats ≤ a) ∧
    (∀ a : Sats, reactdropArgAccepted a = true ↔ reactdropMinVrscSats ≤ a) ∧
    (∀ a : Sats, userArgAccepted a = true) ∧
    (∀ (settings : UserIdT → Option Notification) (dmOk : UserIdT → Bool)
      (st : BotState) (author : UserIdT) (roleId guildId : Nat)
      (members : List (UserIdT × List Nat)) (a : Sats)
      (blacklisted inGuild : Bool) (eid : Nat),
      a < roleMinVrscSats →
      role settings dmOk st author roleId guildId members a blacklisted
          inGuild eid =
        ⟨st, [], false, none, TipResult.err⟩) ∧
    (∀ (st : BotState) (author : UserIdT) (blacklisted emojiValid : Bool)
      (emojiStr : String) (a : Sats) (channel message : Nat) (time : Int)
      (hms : Hms) (now : Int),
      a < reactdropMinVrscSats →
      reactdrop st author blacklisted emojiValid emojiStr a channel message
          time hms now =
        (st, false)) := by
  refine ⟨?_, ?_, ?_, ?_, ?_⟩
  · intro a; simp [roleArgAccepted]
  · intro a; simp [reactdropArgAccepted]
  · intro a; rfl
  · intro settings dmOk st author roleId guildId members a bl ig eid ha
    have hgate : roleArgAccepted a = false := by
      simp only [roleArgAccepted, decide_eq_false_iff_not]
      exact Nat.not_le.mpr ha
    simp [role, hgate]
  · intro st author bl ev es a ch ms t hms now ha
    have hgate : reactdropArgAccepted a = false := by
      simp only [reactdropArgAccepted, decide_eq_false_iff_not]
      exact Nat.not_le.mpr ha
    simp [reactdrop, hgate]

/-- Witness for claim C8 (amended): a role tip of 10 sats (below the 0.5
VRSC bound) is rejected by the platform with the state unchanged. -/
theorem argument_minimums_actual_witness :
    (10 : Sats) < roleMinVrscSats ∧
    role (fun _ => none) (fun _ => true) baseState 1 5 5 [] 10 false true 7 =
      ⟨baseState, [], false, none, TipResult.err⟩ :=
  ⟨by decide,
   argument_minimums_actual.2.2.2.1 (fun _ => none) (fun _ => true) baseState 1
     5 5 [] 10 false true 7 (by decide)⟩

/-! ## Claim C9 -/

/-- Claim C9: every successful transfer appends exactly one ledger entry
per destination account, all entries of the transfer share the one event
id generated for the call, and the sum of the entry amounts equals the
moved total.  The first part states it for the multi-user engine, the
second for the single-user tip. -/
theorem ledger_entries_per_destination :
    (∀ (settings : UserIdT → Option Notification) (dmOk : UserIdT → Bool)
      (st : BotState) (author : UserIdT) (users : List UserIdT)
      (amount : Sats) (kind : String) (eid : Nat),
      users ≠ [] →
      ¬ st.balances author < amount / users.length * users.length →
      (tip_multiple_users settings dmOk st author users amount kind
          eid).state.ledger =
        st.ledger ++ users.map (fun u =>
          ⟨eid, author, u, amount / users.length, kind⟩) ∧
      (tip_multiple_users settings dmOk st author users amount kind
          eid).state.ledger.length = st.ledger.length + users.length ∧
      (∀ e ∈ users.map (fun u =>
          (⟨eid, author, u, amount / users.length, kind⟩ : LedgerEntry)),
        e.event_id = eid) ∧
      ((users.map (fun u =>
          (⟨eid, author, u, amount / users.length, kind⟩ : LedgerEntry))).map
        LedgerEntry.amount).sum = amount / users.length * users.length) ∧
    (∀ (settings : UserIdT → Option Notification) (dmOk : UserIdT → Bool)
      (st : BotState) (author target : UserIdT) (amt : Sats) (eid : Nat),
      ¬ (st.balances author : Int) - (reservedOf st author : Int) <
        (amt : Int) →
      ¬ st.balances author < amt →
      (user settings dmOk st author target amt false eid).state.ledger =
        st.ledger ++ [⟨eid, author, target, amt, "direct"⟩]) := by
  constructor
  · intro settings dmOk st author users amount kind eid hne hbal
    rw [tip_multiple_users_success settings dmOk st author users amount kind
      eid hne hbal]
    refine ⟨rfl, ?_, ?_, ?_⟩
    · simp
    · intro e he
      rcases List.mem_map.mp he with ⟨u, _, rfl⟩
      rfl
    · rw [List.map_map]
      have hc : (LedgerEntry.amount ∘ fun u =>
          (⟨eid, author, u, amount / users.length, kind⟩ : LedgerEntry)) =
          fun _ => amount / users.length := rfl
      rw [hc, sum_map_const, Nat.mul_comm]
  · intro settings dmOk st author target amt eid h1 h2
    simp only [user, get_and_check_balance, if_neg h1, Bool.false_eq_true,
      if_false, process_a_tip, List.length_singleton, mul_one, if_neg h2,
      store_tip_transactions, List.map_cons, List.map_nil]

/-- Witness for claim C9 (multi-user part): user 1 role-tips 10 sats to
users 2 and 3; exactly two ledger rows are appended, both with event id
7, and their amounts sum to the moved total 10. -/
theorem ledger_entries_per_destination_witness :
    (tip_multiple_users (fun _ => none) (fun _ => true) baseState 1 [2, 3] 10
        "role" 7).state.ledger =
      [⟨7, 1, 2, 5, "role"⟩, ⟨7, 1, 3, 5, "role"⟩] ∧
    (tip_multiple_users (fun _ => none) (fun _ => true) baseState 1 [2, 3] 10
        "role" 7).state.ledger.length = 2 ∧
    (∀ e ∈ ([⟨7, 1, 2, 5, "role"⟩, ⟨7, 1, 3, 5, "role"⟩] : List LedgerEntry),
      e.event_id = 7) ∧
    (([⟨7, 1, 2, 5, "role"⟩, ⟨7, 1, 3, 5, "role"⟩] : List LedgerEntry).map
      LedgerEntry.amount).sum = 10 :=
  ledger_entries_per_destination.1 (fun _ => none) (fun _ => true) baseState 1
    [2, 3] 10 "role" 7 (by decide) (by decide)

/-! ## Claim C10 -/

/-- Claim C10: in the role tip, when the selected role is the guild's
everyone-role (role id equal to the guild id), the destination list is
every member of the guild, whatever roles each member holds: the filter
`m.roles.contains(role.id) || role.id == guild.id` is true for every
member. -/
theorem everyone_role_includes_all_members
    (members : List (UserIdT × List Nat)) (roleId guildId : Nat)
    (h : roleId = guildId) :
    role_members members roleId guildId = members.map Prod.fst := by
  subst h
  simp [role_members]

/-- Witness for claim C10: with role id 5 equal to the guild id 5, both
guild members appear in the destination list, including member 2 who
holds no roles. -/
theorem everyone_role_includes_all_members_witness :
    (5 : Nat) = 5 ∧
    role_members [(1, [10]), (2, [])] 5 5 = [1, 2] :=
  ⟨rfl, everyone_role_includes_all_members [(1, [10]), (2, [])] 5 5 rfl⟩

end Bot
